import Mathlib

/-!
Shallow embedding of the client-side state machine of the trolley-tracker
single-page application (`src/frontend/src/App.jsx`), together with theorems
about its behaviour: ETA response formatting, stop/route/car selection,
the location poll, and the ordering race between overlapping ETA fetches.
-/

/-! ## Static stop catalog (App.jsx lines 12-22) -/

def northboundStops : List String :=
  ["Dorsey Ln/Apache Blvd", "Rural Rd/Apache Blvd", "Paseo Del Saber/Apache Blvd",
   "College Ave/Apache Blvd", "Eleventh St/Mill", "Ninth St/Mill",
   "Sixth St/Mill", "Third St/Mill", "Hayden Ferry", "Marina Heights"]

def southboundStops : List String :=
  ["Marina Heights", "Hayden Ferry", "Tempe Beach Park", "3rd St/Ash Ave",
   "5th St/Ash Ave", "University Dr/Ash Ave", "Ninth St/Mill",
   "Eleventh St/Mill", "College Ave/Apache Blvd", "Paseo Del Saber/Apache Blvd",
   "Rural Rd/Apache Blvd", "Dorsey Ln/Apache Blvd"]

/-! ## Data model -/

/-- A tracked vehicle as returned by the location endpoint:
`{ id, lat, lng }` (App.jsx line 65 comment). Coordinates are JSON numbers,
embedded as rationals. -/
structure Vehicle where
  id : String
  lat : Rat
  lng : Rat
deriving DecidableEq

/-- The JSON body of an ETA response. Each field is optional (`none` models an
absent or null field, matching the `!= null` and truthiness checks of the
source); `eta_min` and `eta_sec` are embedded as integers. -/
structure EtaResponse where
  error : Option String
  eta_min : Option Int
  eta_sec : Option Int
deriving DecidableEq

/-- The component state held by the `useState` hooks of `App`
(App.jsx lines 27-34, 65, 83). -/
structure AppState where
  isDrawerOpen : Bool
  route : String
  selectedStop : String
  finalETA : String
  trolleyLocations : List Vehicle
  selectedCar : Option Vehicle

/-- The initial values passed to the `useState` hooks (App.jsx lines 27-34,
65, 83): drawer closed, route "northbound", stop sentinel "default",
placeholder ETA, empty vehicle list, no car selected. -/
def initState : AppState :=
  { isDrawerOpen := false
    route := "northbound"
    selectedStop := "default"
    finalETA := "ETA_PLACEHOLDER"
    trolleyLocations := []
    selectedCar := none }

/-- Derived list of stops for the current route
(App.jsx line 31: `route === "northbound" ? northboundStops : southboundStops`). -/
def stops (s : AppState) : List String :=
  if s.route = "northbound" then northboundStops else southboundStops

/-! ## Operations on the state -/

/-- The `setRoute` state setter passed to `RouteToggle` (App.jsx lines 29, 118):
replaces the `route` field and nothing else. -/
def setRoute (d : String) (s : AppState) : AppState :=
  { s with route := d }

/-- The `toggleSidebar` click handler (App.jsx line 100): flips the drawer
boolean. -/
def toggleDrawer (s : AppState) : AppState :=
  { s with isDrawerOpen := !s.isDrawerOpen }

/-- The `selectCar` handler (App.jsx lines 84-88):
`trolleyLocations.find((car) => car.id === carId)` followed by
`setSelectedCar(selected || null)`. `List.find?` returning `none` models
`find` returning `undefined`, which `|| null` turns into `null`. -/
def selectCar (carId : String) (s : AppState) : AppState :=
  { s with selectedCar := s.trolleyLocations.find? (fun car => car.id == carId) }

/-- JavaScript truthiness of an optional string-valued JSON field:
an absent or null field is falsy, a string is truthy iff non-empty.
Used for the `if (data.error)` check at App.jsx line 50. -/
def jsTruthy : Option String → Bool
  | none => false
  | some s => !(s == "")

/-- The response interpretation of `handleSelectStop` (App.jsx lines 50-56):
`if (data.error) setFinalETA(data.error); else if (data.eta_min != null &&
data.eta_sec != null) setFinalETA(...min...sec); else
setFinalETA("ETA not available.")`. -/
def etaDisplay (data : EtaResponse) : String :=
  if jsTruthy data.error then data.error.getD ""
  else if data.eta_min.isSome && data.eta_sec.isSome then
    toString (data.eta_min.getD 0) ++ " min " ++ toString (data.eta_sec.getD 0) ++ " sec"
  else "ETA not available."

/-- The synchronous prefix of `handleSelectStop` (App.jsx line 36):
`setSelectedStop(stop)` runs before the fetch is awaited. -/
def handleSelectStopSync (stop : String) (s : AppState) : AppState :=
  { s with selectedStop := stop }

/-- Applying a parsed ETA response to the state (App.jsx lines 49-56): the
display string is overwritten unconditionally, no other field changes. -/
def applyEtaResponse (data : EtaResponse) (s : AppState) : AppState :=
  { s with finalETA := etaDisplay data }

/-- State setters actually bound in the `App` component, in declaration order
(App.jsx lines 27, 29, 30, 34, 65, 83). -/
def componentSetters : List String :=
  ["setIsDrawerOpen", "setRoute", "setSelectedStop", "setFinalETA",
   "setTrolleyLocations", "setSelectedCar"]

/-- A JavaScript runtime error raised during a state update. -/
inductive JsError where
  | referenceError (name : String)
deriving DecidableEq

/-- The `catch` block of `handleSelectStop` (App.jsx lines 58-61): it calls
`setEta("ERROR")`. If a setter named `setEta` were bound in the component the
display would become `"ERROR"`; in fact no such binding exists, so evaluating
the identifier raises a `ReferenceError` and no state update happens. -/
def applyEtaFailure (s : AppState) : Except JsError AppState :=
  if componentSetters.contains "setEta" then
    Except.ok { s with finalETA := "ERROR" }
  else
    Except.error (JsError.referenceError "setEta")

/-- The state after the catch block runs: the update applies only if the catch
block did not itself raise; a raised `ReferenceError` leaves the state as it
was. -/
def resolveFailApp (s : AppState) : AppState :=
  (applyEtaFailure s).toOption.getD s

/-- A completed location poll (App.jsx lines 66-72): `setTrolleyLocations(data)`
replaces the whole vehicle list and touches nothing else. -/
def applyPollResponse (data : List Vehicle) (s : AppState) : AppState :=
  { s with trolleyLocations := data }

/-! ## Location poll schedule (App.jsx lines 73-80)

The first `useEffect` calls `fetchTrolleyLocations()` once at mount (time 0);
the second installs `setInterval(fetchTrolleyLocations, 5000)` at mount and
clears it in its cleanup at teardown time `T`. -/

def pollPeriodMs : Nat := 5000

/-- Firing times of an interval installed at time 0 with period `p` and
cleared at time `T`: the `k`-th tick occurs at `p * k` (for `k ≥ 1`) and only
if the interval has not yet been cleared. -/
def intervalFires (p T t : Nat) : Prop :=
  ∃ k, 1 ≤ k ∧ t = p * k ∧ t < T

/-- A location request is issued at time `t` (with teardown at `T`) iff it is
the immediate mount fetch at time 0 or a tick of the 5000 ms interval. -/
def pollRequestedAt (T t : Nat) : Prop :=
  t = 0 ∨ intervalFires pollPeriodMs T t

/-! ## Event-interleaving model for overlapping ETA fetches

`handleSelectStop` is `async`: the `setSelectedStop` call is synchronous, the
fetch resolution arrives later. Nothing ties a resolution to the currently
selected stop, so responses may be applied in any order relative to later
selections. -/

/-- A dispatched, not yet resolved ETA fetch: its dispatch sequence number and
the `{stop, route}` request body captured at dispatch time
(App.jsx lines 40-47). -/
structure EtaFetch where
  fid : Nat
  stop : String
  route : String
deriving DecidableEq

/-- System state: component state plus in-flight ETA fetches. `lastResolved`
is a ghost field recording which fetch most recently wrote the display. -/
structure SysState where
  app : AppState
  pendingEta : List EtaFetch
  nextId : Nat
  lastResolved : Option EtaFetch

def initSys : SysState :=
  { app := initState, pendingEta := [], nextId := 0, lastResolved := none }

/-- A stop selection: updates `selectedStop` synchronously and dispatches a
fetch carrying the stop and the route read at dispatch time. -/
def selectStopStep (stop : String) (σ : SysState) : SysState :=
  { app := handleSelectStopSync stop σ.app
    pendingEta := σ.pendingEta ++ [{ fid := σ.nextId, stop := stop, route := σ.app.route }]
    nextId := σ.nextId + 1
    lastResolved := σ.lastResolved }

/-- A fetch resolving successfully: its parsed response is applied to the
display unconditionally, with no check against the currently selected stop. -/
def resolveEtaStep (f : EtaFetch) (data : EtaResponse) (σ : SysState) : SysState :=
  { σ with
    app := applyEtaResponse data σ.app
    pendingEta := σ.pendingEta.erase f
    lastResolved := some f }

/-- A fetch rejecting: the catch block runs (and, as embedded in
`applyEtaFailure`, itself raises, leaving the component state unchanged). -/
def resolveEtaFailStep (f : EtaFetch) (σ : SysState) : SysState :=
  { σ with
    app := resolveFailApp σ.app
    pendingEta := σ.pendingEta.erase f }

/-- One asynchronous event of the UI event loop. -/
inductive SysStep : SysState → SysState → Prop where
  | selectStop (stop : String) (σ : SysState) :
      SysStep σ (selectStopStep stop σ)
  | resolveEta (f : EtaFetch) (data : EtaResponse) (σ : SysState)
      (h : f ∈ σ.pendingEta) :
      SysStep σ (resolveEtaStep f data σ)
  | resolveEtaFail (f : EtaFetch) (σ : SysState) (h : f ∈ σ.pendingEta) :
      SysStep σ (resolveEtaFailStep f σ)
  | pollComplete (data : List Vehicle) (σ : SysState) :
      SysStep σ { σ with app := applyPollResponse data σ.app }
  | setRouteStep (d : String) (σ : SysState) :
      SysStep σ { σ with app := setRoute d σ.app }
  | selectCarStep (cid : String) (σ : SysState) :
      SysStep σ { σ with app := selectCar cid σ.app }
  | toggleDrawerStep (σ : SysState) :
      SysStep σ { σ with app := toggleDrawer σ.app }

/-- Reachability from the freshly mounted component. -/
def ReachableSys (σ : SysState) : Prop :=
  Relation.ReflTransGen SysStep initSys σ

/-- Concrete responses used in the race trace below. -/
def respA : EtaResponse := { error := none, eta_min := some 3, eta_sec := some 7 }

def respB : EtaResponse := { error := none, eta_min := some 1, eta_sec := some 2 }

/-- The fetch dispatched first, for the stop "Marina Heights". -/
def fetchA : EtaFetch := { fid := 0, stop := "Marina Heights", route := "northbound" }

/-- The fetch dispatched second, for the stop "Hayden Ferry". -/
def fetchB : EtaFetch := { fid := 1, stop := "Hayden Ferry", route := "northbound" }

/-! ## Theorems -/

/-- C1: for every ETA response without an error field, the display is exactly
`"<eta_min> min <eta_sec> sec"` when both numeric fields are non-null, and
exactly `"ETA not available."` when either is missing. -/
theorem eta_format_without_error (data : EtaResponse) (h : data.error = none) :
    (∀ m sec, data.eta_min = some m → data.eta_sec = some sec →
        etaDisplay data = toString m ++ " min " ++ toString sec ++ " sec") ∧
    ((data.eta_min = none ∨ data.eta_sec = none) →
        etaDisplay data = "ETA not available.") := by
  constructor
  · intro m sec hm hs
    simp [etaDisplay, jsTruthy, h, hm, hs]
  · intro hcase
    rcases hcase with hm | hs
    · simp [etaDisplay, jsTruthy, h, hm]
    · simp [etaDisplay, jsTruthy, h, hs]

/-- Witness for C1 at the spec examples `{eta_min: 3, eta_sec: 7}` and a
response missing `eta_min`. -/
theorem eta_format_without_error_check :
    etaDisplay { error := none, eta_min := some 3, eta_sec := some 7 } =
      toString (3 : Int) ++ " min " ++ toString (7 : Int) ++ " sec" ∧
    etaDisplay { error := none, eta_min := none, eta_sec := some 7 } =
      "ETA not available." :=
  ⟨(eta_format_without_error { error := none, eta_min := some 3, eta_sec := some 7 } rfl).1
      3 7 rfl rfl,
   (eta_format_without_error { error := none, eta_min := none, eta_sec := some 7 } rfl).2
      (Or.inl rfl)⟩

/-- C2 counterexample: the response `{error: "", eta_min: 3, eta_sec: 7}`
carries an error field, yet the display is the formatted numeric string, not
the server-supplied error string `""` — the `if (data.error)` truthiness check
skips an empty error string. -/
theorem eta_empty_error_string_falls_through :
    ({ error := some "", eta_min := some 3, eta_sec := some 7 } : EtaResponse).error =
      some "" ∧
    etaDisplay { error := some "", eta_min := some 3, eta_sec := some 7 } =
      "3 min 7 sec" ∧
    etaDisplay { error := some "", eta_min := some 3, eta_sec := some 7 } ≠ "" := by
  refine ⟨rfl, ?_, ?_⟩ <;> decide

/-- C2 amended: for every ETA response whose error field is a non-empty
string, the display is exactly that string, taking precedence over any
numeric fields. -/
theorem eta_error_nonempty_precedence (data : EtaResponse) (e : String)
    (he : data.error = some e) (hne : e ≠ "") : etaDisplay data = e := by
  simp [etaDisplay, jsTruthy, he, hne]

/-- Witness for the amended C2 at the spec example
`{error: "Trolley not in service"}` with numeric fields also present. -/
theorem eta_error_nonempty_precedence_check :
    etaDisplay { error := some "Trolley not in service",
                 eta_min := some 3, eta_sec := some 7 } =
      "Trolley not in service" :=
  eta_error_nonempty_precedence
    { error := some "Trolley not in service", eta_min := some 3, eta_sec := some 7 }
    "Trolley not in service" rfl (by decide)

/-- C3: on a transport failure the catch block's `setEta("ERROR")` raises a
`ReferenceError` — no binding named `setEta` exists in the component — so the
displayed ETA silently retains its previous value ("ETA_PLACEHOLDER" here)
instead of entering the intended error state. -/
theorem eta_transport_failure_reference_error :
    applyEtaFailure (handleSelectStopSync "Hayden Ferry" initState) =
      Except.error (JsError.referenceError "setEta") ∧
    (resolveFailApp (handleSelectStopSync "Hayden Ferry" initState)).finalETA =
      "ETA_PLACEHOLDER" :=
  ⟨rfl, rfl⟩

/-- C4: `selectCar` with an id absent from the current vehicle list yields
`selectedCar = none` (never a stale reference, and as a total function it
cannot throw); any `some` result is a member of the current list with the
requested id. -/
theorem selectCar_absent_id_resets (carId : String) (s : AppState) :
    ((∀ v, v ∈ s.trolleyLocations → v.id ≠ carId) →
        (selectCar carId s).selectedCar = none) ∧
    (∀ v, (selectCar carId s).selectedCar = some v →
        v ∈ s.trolleyLocations ∧ v.id = carId) := by
  constructor
  · intro hall
    have : s.trolleyLocations.find? (fun car => car.id == carId) = none := by
      rw [List.find?_eq_none]
      intro x hx
      simpa using hall x hx
    simpa [selectCar] using this
  · intro v hv
    have hfind : s.trolleyLocations.find? (fun car => car.id == carId) = some v := hv
    refine ⟨List.mem_of_find?_eq_some hfind, ?_⟩
    have := List.find?_some hfind
    simpa using this

/-- Witness for C4: looking up an id in the empty initial vehicle list leaves
no car selected. -/
theorem selectCar_absent_id_resets_check :
    (selectCar "car-9" initState).selectedCar = none :=
  (selectCar_absent_id_resets "car-9" initState).1
    (fun v hv => absurd hv (List.not_mem_nil v))

/-- C5: `setRoute` swaps the active stop list to the new direction's fixed
sequence while leaving `selectedStop`, the displayed ETA, and the selected
car exactly unchanged. -/
theorem setRoute_preserves_selection (d : String) (s : AppState) :
    (setRoute d s).selectedStop = s.selectedStop ∧
    (setRoute d s).finalETA = s.finalETA ∧
    (setRoute d s).selectedCar = s.selectedCar ∧
    stops (setRoute d s) =
      (if d = "northbound" then northboundStops else southboundStops) :=
  ⟨rfl, rfl, rfl, rfl⟩

/-- C6: every successful fetch resolution overwrites the display
unconditionally (the equation holds for every state, with no guard on the
selected stop), and a state is reachable in which the displayed ETA was
written by a fetch for "Marina Heights" — dispatched before, but resolved
after, the fetch for the currently selected stop "Hayden Ferry". -/
theorem eta_overwrite_race_reachable :
    (∀ (f : EtaFetch) (data : EtaResponse) (σ : SysState),
        (resolveEtaStep f data σ).app.finalETA = etaDisplay data) ∧
    (∃ σ : SysState, ReachableSys σ ∧
        σ.app.selectedStop = "Hayden Ferry" ∧
        σ.lastResolved = some fetchA ∧
        fetchA.stop ≠ "Hayden Ferry" ∧
        σ.app.finalETA = etaDisplay respA ∧
        etaDisplay respA ≠ etaDisplay respB) := by
  refine ⟨fun f data σ => rfl, ?_⟩
  refine ⟨resolveEtaStep fetchA respA (resolveEtaStep fetchB respB
    (selectStopStep "Hayden Ferry" (selectStopStep "Marina Heights" initSys))),
    ?_, rfl, rfl, by decide, rfl, by decide⟩
  exact Relation.ReflTransGen.head (SysStep.selectStop "Marina Heights" initSys)
    (Relation.ReflTransGen.head
      (SysStep.selectStop "Hayden Ferry" (selectStopStep "Marina Heights" initSys))
      (Relation.ReflTransGen.head
        (SysStep.resolveEta fetchB respB
          (selectStopStep "Hayden Ferry" (selectStopStep "Marina Heights" initSys))
          (by decide))
        (Relation.ReflTransGen.single
          (SysStep.resolveEta fetchA respA
            (resolveEtaStep fetchB respB
              (selectStopStep "Hayden Ferry" (selectStopStep "Marina Heights" initSys)))
            (by decide)))))

/-- C7: a completed poll replaces the vehicle list wholesale but leaves
`selectedCar` untouched; a car selected before the poll keeps referring to the
lookup result from the pre-poll list, whatever the new data contains. -/
theorem poll_preserves_selectedCar (data : List Vehicle) (carId : String) (s : AppState) :
    (applyPollResponse data s).selectedCar = s.selectedCar ∧
    (applyPollResponse data s).trolleyLocations = data ∧
    (applyPollResponse data (selectCar carId s)).selectedCar =
      s.trolleyLocations.find? (fun car => car.id == carId) :=
  ⟨rfl, rfl, rfl⟩

/-- C8: with teardown at time `T`, a poll request is issued immediately at
mount (time 0), at every interval tick `5000 * k` before teardown, at no
other time, and never at or after teardown; each completion replaces the
entire vehicle list with the response. -/
theorem poll_schedule_contract (T : Nat) :
    pollRequestedAt T 0 ∧
    (∀ k, 1 ≤ k → 5000 * k < T → pollRequestedAt T (5000 * k)) ∧
    (∀ t, pollRequestedAt T t → t = 0 ∨ ∃ k, 1 ≤ k ∧ t = 5000 * k ∧ t < T) ∧
    (∀ t, T ≤ t → 0 < t → ¬ pollRequestedAt T t) ∧
    (∀ (data : List Vehicle) (s : AppState),
        (applyPollResponse data s).trolleyLocations = data) := by
  refine ⟨Or.inl rfl, ?_, ?_, ?_, fun data s => rfl⟩
  · intro k hk hlt
    exact Or.inr ⟨k, hk, rfl, hlt⟩
  · intro t ht
    rcases ht with h0 | ⟨k, hk, hkt, hlt⟩
    · exact Or.inl h0
    · exact Or.inr ⟨k, hk, hkt, hlt⟩
  · intro t hT hpos hreq
    rcases hreq with h0 | ⟨k, hk, hkt, hlt⟩
    · omega
    · omega

/-- Witness for C8 with teardown at 7000 ms: the first interval tick at
5000 ms fires, the second at 10000 ms does not. -/
theorem poll_schedule_contract_check :
    pollRequestedAt 7000 (5000 * 1) ∧ ¬ pollRequestedAt 7000 10000 :=
  ⟨(poll_schedule_contract 7000).2.1 1 (by decide) (by decide),
   (poll_schedule_contract 7000).2.2.2.1 10000 (by decide) (by decide)⟩

/-- C9: the freshly mounted component, before any interaction or response:
route "northbound", stop sentinel "default", ETA placeholder, empty vehicle
list, no selected car, drawer closed. -/
theorem initial_state_fields :
    initState.route = "northbound" ∧
    initState.selectedStop = "default" ∧
    initState.finalETA = "ETA_PLACEHOLDER" ∧
    initState.trolleyLocations = [] ∧
    initState.selectedCar = none ∧
    initState.isDrawerOpen = false :=
  ⟨rfl, rfl, rfl, rfl, rfl, rfl⟩

/-- C10: a stop selection sets `selectedStop` synchronously, and the later
fetch resolution — successful or failed — leaves it at the new value; a
failure never rolls the selection back. -/
theorem selectStop_sync_update_survives_failure
    (stop : String) (s : AppState) (data : EtaResponse) :
    (handleSelectStopSync stop s).selectedStop = stop ∧
    (applyEtaResponse data (handleSelectStopSync stop s)).selectedStop = stop ∧
    (resolveFailApp (handleSelectStopSync stop s)).selectedStop = stop :=
  ⟨rfl, rfl, rfl⟩
